import Mathlib

/-!
Verification of the AssetAllocation repository (src/AssetAllocation.py).

The program's numeric values (Python floats) are embedded as rationals `ℚ`;
dollar strings produced by `str(round(x, 2))` are modelled by a decimal
formatter for rationals whose denominator divides 100, which is the shortest
`repr` Python prints for such two-decimal values.  Python exceptions are
modelled with `Except` / an explicit error component.
-/

set_option maxRecDepth 2000

/-- Decidable equality for `Except`, used to evaluate concrete runs. -/
instance {ε α : Type} [DecidableEq ε] [DecidableEq α] : DecidableEq (Except ε α) := fun a b =>
  match a, b with
  | .error e, .error f =>
    if h : e = f then .isTrue (by rw [h]) else .isFalse (by intro hc; cases hc; exact h rfl)
  | .ok x, .ok y =>
    if h : x = y then .isTrue (by rw [h]) else .isFalse (by intro hc; cases hc; exact h rfl)
  | .error _, .ok _ => .isFalse (by intro hc; cases hc)
  | .ok _, .error _ => .isFalse (by intro hc; cases hc)

namespace AssetAllocation

/-- Python exceptions that the scraping / calculation code can raise. -/
inductive PyError where
  | zeroDivisionError
  | indexError
  | valueError
  deriving DecidableEq, Repr

/-- The buy/sell/hold decision encoded in the button string that
`buy_or_sell` builds ("Looks good for ...", "Buy $a ...", "Sell $a ..."). -/
inductive Action where
  | hold
  | buy (amount : ℚ)
  | sell (amount : ℚ)
  deriving DecidableEq, Repr

/-- Python `int(x)` applied to a float value: truncation toward zero. -/
def pyInt (q : ℚ) : ℤ :=
  Int.tdiv q.num q.den

/-- Round a rational to the nearest integer, ties to the even integer,
as Python's builtin `round` does.  `f` is the floor of `q` and `r` its
nonnegative remainder numerator, so `q - f = r / den`; `r / den` is compared
with `1/2` by comparing `2 * r` with `den`. -/
def pyRoundHalfEven (q : ℚ) : ℤ :=
  let f : ℤ := q.num.fdiv q.den
  let r : ℤ := q.num - f * q.den
  if 2 * r < (q.den : ℤ) then f
  else if (q.den : ℤ) < 2 * r then f + 1
  else if f % 2 = 0 then f else f + 1

/-- Python `round(x, 2)`: round to the nearest multiple of 1/100. -/
def pyRound2 (q : ℚ) : ℚ :=
  (pyRoundHalfEven (q * 100) : ℚ) / 100

/-- Python `str(x)` for a float holding a two-decimal value (the results of
`round(_, 2)` and the whole-number percentages `100 * pct` in the source):
prints the integer part, a dot, and one or two fractional digits, e.g.
`40 ↦ "40.0"`, `39.99 ↦ "39.99"`, `90.01 ↦ "90.01"`. -/
def pyFloatStr (q : ℚ) : String :=
  let n : ℤ := (q * 100).num.fdiv (q * 100).den
  let sign := if n < 0 then "-" else ""
  let m := n.natAbs
  let ip := m / 100
  let fr := m % 100
  let frStr :=
    if fr % 10 = 0 then toString (fr / 10)
    else if fr < 10 then "0" ++ toString fr
    else toString fr
  sign ++ toString ip ++ "." ++ frStr

/-- The mutable attributes of `UiMainWindow` that the computation touches:
the loaded balances, the info table, the target-value list, the selected
filename, the two labels and the three recommendation buttons. -/
structure AppState where
  filename : String
  currentBalances : List ℚ
  infoTable : List (List String)
  targetValue : List String
  errorLabel : String
  infoLabel : String
  bondsText : String
  internationalText : String
  nationalText : String
  deriving DecidableEq, Repr

/-- Source `buy_or_sell(self, percentage, total, current, money_to_invest, key)`
(lines 30-48).  `target = total * percentage`; dividing by a zero `current`
raises ZeroDivisionError (line 33).  The Hold branch tests
`.95 < ratio < 1.05 and int(money_to_invest) == 0` (line 37); otherwise the
amount is `round(abs(current - target), 2)` and the verdict is Buy when
`ratio > 1.0`, else Sell (lines 40-44).  `str(round(target, 2))` is appended
to `target_value` (line 46) and the fund name `info_table[1][key]` is looked
up (line 47; its IndexError is modelled up front since no other effect
precedes it).  Returns the updated state, the decision, and the button text. -/
def buy_or_sell (st : AppState) (percentage total current money_to_invest : ℚ)
    (key : Nat) : Except PyError (AppState × Action × String) :=
  if current = 0 then .error .zeroDivisionError
  else
    let target := total * percentage
    let ratio := target / current
    let st1 : AppState :=
      { st with targetValue := st.targetValue ++ [pyFloatStr (pyRound2 target)] }
    match (st.infoTable.get? 1).bind (fun row => row.get? key) with
    | none => .error .indexError
    | some name =>
      if (0.95 : ℚ) < ratio ∧ ratio < (1.05 : ℚ) ∧ pyInt money_to_invest = 0 then
        .ok (st1, .hold, "Looks good for " ++ name)
      else
        let amt := pyRound2 |current - target|
        if (1 : ℚ) < ratio then
          .ok (st1, .buy amt, "Buy " ++ "$" ++ pyFloatStr amt ++ " " ++ name)
        else
          .ok (st1, .sell amt, "Sell " ++ "$" ++ pyFloatStr amt ++ " " ++ name)

/-- `a` begins the character list `b` (used to model Python's `in`). -/
def beginsWith : List Char → List Char → Bool
  | [], _ => true
  | _ :: _, [] => false
  | a :: as, b :: bs => a = b && beginsWith as bs

/-- The character list `n` occurs contiguously inside `hay`. -/
def subList (n : List Char) : List Char → Bool
  | [] => n.isEmpty
  | c :: cs => beginsWith n (c :: cs) || subList n cs

/-- Python's `needle in hay` substring test on strings. -/
def containsSub (needle hay : String) : Bool :=
  subList needle.data hay.data

/-- The glide-path selection `if "2020" in self.filename: ... elif ... else`
of `calculate_strategy` (lines 79-114): the `(bond, international, national)`
percentage triple chosen from the filename. -/
def glidePercentages (filename : String) : ℚ × ℚ × ℚ :=
  if containsSub "2020" filename then (0.2, 0.3, 0.5)
  else if containsSub "2030" filename then (0.3, 0.27, 0.43)
  else if containsSub "2040" filename then (0.4, 0.23, 0.37)
  else if containsSub "2050" filename then (0.5, 0.19, 0.31)
  else if containsSub "2060" filename then (0.6, 0.15, 0.25)
  else if containsSub "2070" filename then (0.7, 0.11, 0.19)
  else if containsSub "2080" filename then (0.8, 0.08, 0.12)
  else if containsSub "2090" filename then (0.9, 0.04, 0.06)
  else (1.0, 0.0, 0.0)

/-- Modelled from the spec ("Decision is substring containment against each
fixed token, checked in a fixed order; first match wins", with the all-bonds
default): the ordered token table of the glide path. -/
def glideTable : List (String × (ℚ × ℚ × ℚ)) :=
  [("2020", (0.2, 0.3, 0.5)), ("2030", (0.3, 0.27, 0.43)),
   ("2040", (0.4, 0.23, 0.37)), ("2050", (0.5, 0.19, 0.31)),
   ("2060", (0.6, 0.15, 0.25)), ("2070", (0.7, 0.11, 0.19)),
   ("2080", (0.8, 0.08, 0.12)), ("2090", (0.9, 0.04, 0.06))]

/-- Modelled from the spec: first-match lookup over the ordered token table,
with the all-bonds default when no token occurs in the label. -/
def glideFirstMatch (filename : String) : ℚ × ℚ × ℚ :=
  match glideTable.find? (fun e => containsSub e.1 filename) with
  | some e => e.2
  | none => (1.0, 0.0, 0.0)

/-- The header row that `scrape_values_from_csv` installs as `info_table[0]`
(line 66). -/
def headerRow : List String :=
  ["Symbol", "Current Value", "Current Allocation", "Target value", "Target Allocation"]

/-- Digits of a decimal numeral read into a natural number. -/
def natOfDigits (l : List Char) : Nat :=
  l.foldl (fun a c => 10 * a + (c.toNat - 48)) 0

/-- Python's builtin `float(s)` on the plain decimal literals that appear in
position files (optional sign, integer digits, optional fractional digits);
`none` models the ValueError raised on any other text, e.g. the
thousands-separator string "1,234.56". -/
def pyParseFloat (s : String) : Option ℚ :=
  let (neg, body) :=
    if s.startsWith "-" then (true, s.drop 1)
    else if s.startsWith "+" then (false, s.drop 1)
    else (false, s)
  match body.splitOn "." with
  | [ipart] =>
    if ipart.length > 0 && ipart.data.all Char.isDigit then
      some ((if neg then (-1 : ℚ) else 1) * (natOfDigits ipart.data : ℚ))
    else none
  | [ipart, fpart] =>
    if ipart.length + fpart.length > 0 && ipart.data.all Char.isDigit
        && fpart.data.all Char.isDigit then
      some ((if neg then (-1 : ℚ) else 1)
        * mkRat (natOfDigits (ipart.data ++ fpart.data)) (10 ^ fpart.length))
    else none
  | _ => none

/-- One iteration of the scraping loop (lines 67-70) at row index `i`:
fetch `csv_list[i][6]` (IndexError when absent), parse it with the `'$'`
stripped (ValueError on bad text), and fetch the fund name `csv_list[i][1]`.
Returns the raw cell, the parsed balance and the name. -/
def scrapeRow (csvList : List (List String)) (i : Nat) :
    Except PyError (String × ℚ × String) :=
  match (csvList.get? i).bind (fun row => row.get? 6) with
  | none => .error .indexError
  | some cell =>
    match pyParseFloat (cell.replace "$" "") with
    | none => .error .valueError
    | some v =>
      match (csvList.get? i).bind (fun row => row.get? 1) with
      | none => .error .indexError
      | some nm => .ok (cell, v, nm)

/-- Source `scrape_values_from_csv` (lines 51-72).  `csvData = none` models
an exception while opening/reading the file, caught by the bare `except:`
that sets the `[-1]` flag; `some csvList` models the `else:` block, which
runs outside the `try` and whose IndexError/ValueError propagate uncaught
(reported in the second component, leaving the partially mutated state:
`current_balances` was cleared on line 55 and `info_table` reset on line 66
before the loop, and each successfully parsed balance was appended). -/
def scrape_values_from_csv (csvData : Option (List (List String)))
    (st : AppState) : AppState × Option PyError :=
  match csvData with
  | none => ({ st with currentBalances := [-1] }, none)
  | some csvList =>
    let st0 := { st with currentBalances := [], infoTable := [headerRow] }
    match scrapeRow csvList 2 with
    | .error e => (st0, some e)
    | .ok (c2, v2, n2) =>
      let st2 := { st0 with currentBalances := [v2] }
      match scrapeRow csvList 3 with
      | .error e => (st2, some e)
      | .ok (c3, v3, n3) =>
        let st3 := { st2 with currentBalances := [v2, v3] }
        match scrapeRow csvList 4 with
        | .error e => (st3, some e)
        | .ok (c4, v4, n4) =>
          let st4 := { st3 with currentBalances := [v2, v3, v4] }
          ({ st4 with infoTable := [headerRow, [n2, n3, n4], [c2, c3, c4]] }, none)

/-- Source `calculate_strategy(self, money_to_invest)` (lines 75-133):
select the glide-path percentages from the filename, set
`total_amount = money_to_invest + sum(current_balances)`, clear
`target_value`, run `buy_or_sell` for the three funds (indices 0, 1, 2 of
`current_balances`; any exception carries the state mutated so far), then
append the current-allocation row, the `target_value` row and the
target-allocation row to `info_table` (lines 128-133).  Returns the final
state and the three decisions behind the button texts. -/
def calculate_strategy (st : AppState) (money_to_invest : ℚ) :
    Except (PyError × AppState) (AppState × Action × Action × Action) :=
  let gp := glidePercentages st.filename
  let bond_percentage := gp.1
  let international_index_percentage := gp.2.1
  let national_index_percentage := gp.2.2
  let total_amount := money_to_invest + st.currentBalances.sum
  let st0 := { st with targetValue := [] }
  match st0.currentBalances.get? 0 with
  | none => .error (.indexError, st0)
  | some b0 =>
    match buy_or_sell st0 bond_percentage total_amount b0 money_to_invest 0 with
    | .error e => .error (e, st0)
    | .ok (stA, act0, text0) =>
      let st1 := { stA with bondsText := text0 }
      match st1.currentBalances.get? 1 with
      | none => .error (.indexError, st1)
      | some b1 =>
        match buy_or_sell st1 international_index_percentage total_amount b1
            money_to_invest 1 with
        | .error e => .error (e, st1)
        | .ok (stB, act1, text1) =>
          let st2 := { stB with internationalText := text1 }
          match st2.currentBalances.get? 2 with
          | none => .error (.indexError, st2)
          | some b2 =>
            match buy_or_sell st2 national_index_percentage total_amount b2
                money_to_invest 2 with
            | .error e => .error (e, st2)
            | .ok (stC, act2, text2) =>
              let st3 := { stC with nationalText := text2 }
              if total_amount - money_to_invest = 0 then
                .error (.zeroDivisionError, st3)
              else
                let pct := fun b =>
                  pyFloatStr (pyRound2 (100 * b / (total_amount - money_to_invest))) ++ "%"
                let gstr := fun p => pyFloatStr (100 * p) ++ "%"
                let st4 := { st3 with infoTable := st3.infoTable ++
                  [[pct b0, pct b1, pct b2], st3.targetValue,
                   [gstr bond_percentage, gstr international_index_percentage,
                    gstr national_index_percentage]] }
                .ok (st4, act0, act1, act2)

/-- Python `str.ljust(w)`: pad on the right with spaces to width `w`. -/
def pyLjust (s : String) (w : Nat) : String :=
  s ++ String.mk (List.replicate (w - s.length) ' ')

/-- One cell of the info label: `"{:20}|".format(str(cell).ljust(15))`. -/
def fmtCell (x : String) : String :=
  pyLjust (pyLjust x 15) 20 ++ "|"

/-- The fixed-width text table that `calculate` builds into the info label
(lines 276-284): a title line, the header cells, a dashed rule of length
`int(len(s) * .85)`, then one line per fund with the cells of table rows
1 and onward.  Out-of-range cells default to `""`: on the reachable
six-row tables every row has at least as many cells as the names row, so
the defaults are never used (the source would raise IndexError there). -/
def renderInfoTable (tbl : List (List String)) : String :=
  let s1 := "Values From CSV: \n\n|" ++ String.join ((tbl.getD 0 []).map fmtCell)
  let s2 := s1 ++ "\n"
    ++ String.mk (List.replicate (pyInt ((s1.length : ℚ) * 0.85)).toNat '-')
  let body := String.join ((List.range (tbl.getD 1 []).length).map (fun i =>
    "\n|" ++ String.join ((List.range (tbl.length - 1)).map (fun j =>
      fmtCell ((tbl.getD (j + 1) []).getD i "")))))
  s2 ++ body ++ "\n"

/-- Python `list.remove(x)`: delete the first element equal to `x` (the
source never hits the ValueError raised when `x` is absent, since it always
passes an element of the list). -/
def pyListRemove (l : List (List String)) (x : List String) : List (List String) :=
  match l with
  | [] => []
  | h :: t => if h = x then t else h :: pyListRemove t x

/-- One pass of the cleanup loop on lines 286-287:
`info_table.remove(info_table[len(info_table) - 1])`, i.e. remove the first
row equal to the last row (on the empty table the source would raise
IndexError, which is unreachable). -/
def removeLastRowStep (tbl : List (List String)) : List (List String) :=
  match tbl.getLast? with
  | none => tbl
  | some x => pyListRemove tbl x

/-- Source `calculate(self)` (lines 263-289).  `parsedAmount` is the result
of the builtin `float(entry_text)` (`none` when it raises): on failure a
blank entry is treated as 0.00 and any other text sets the
"You did not enter a valid amount" label and returns.  With a valid amount
and loaded balances (`current_balances ≠ [-1]`) it runs
`calculate_strategy`, sets the "Strategy Calculated" label, renders the
info label, and removes the last three info-table rows via `list.remove`;
otherwise it reports the csv-file error.  An exception escaping
`calculate_strategy` is reported in the second component. -/
def calculate (st : AppState) (parsedAmount : Option ℚ) (entryText : String) :
    AppState × Option PyError :=
  let amount : Option ℚ :=
    match parsedAmount with
    | some a => some a
    | none => if entryText = "" then some 0 else none
  match amount with
  | none => ({ st with errorLabel := "You did not enter a valid amount" }, none)
  | some amount_to_invest =>
    if st.currentBalances ≠ [-1] then
      match calculate_strategy st amount_to_invest with
      | .error (e, stP) => (stP, some e)
      | .ok (st1, _, _, _) =>
        let st2 := { st1 with errorLabel := "Strategy Calculated" }
        let st3 := { st2 with infoLabel := renderInfoTable st2.infoTable }
        ({ st3 with
           infoTable := removeLastRowStep (removeLastRowStep (removeLastRowStep st3.infoTable)) },
         none)
    else
      ({ st with errorLabel := "you did not enter a csv file" }, none)

/-- Left-to-right scan of Python's `re.findall(r"\d+(?:\.\d+)?", text)`
(the `numbers` pattern compiled on line 140): `acc` is the number being
built, `hasDot` records whether its decimal point was already consumed, and
`pend` that a `'.'` was just seen and joins the match only when a digit
follows. -/
def scanAux : List Char → List Char → Bool → Bool → List (List Char)
  | [], acc, _, _ => if acc.isEmpty then [] else [acc]
  | c :: cs, acc, hasDot, pend =>
    if acc.isEmpty then
      if c.isDigit then scanAux cs [c] false false else scanAux cs [] false false
    else if pend then
      if c.isDigit then scanAux cs (acc ++ ['.', c]) true false
      else acc :: scanAux cs [] false false
    else if c.isDigit then scanAux cs (acc ++ [c]) hasDot false
    else if c = '.' && !hasDot then scanAux cs acc hasDot true
    else acc :: scanAux cs [] false false

/-- `self.numbers.findall(text)`: all decimal-number substrings. -/
def numbersFindAll (text : String) : List String :=
  (scanAux text.data [] false false).map (fun l => String.mk l)

/-- The clipboard-copy extraction of `copy_bond_number` and its siblings
(lines 292-299): `''.join(self.numbers.findall(button_text))`. -/
def copyButtonNumber (text : String) : String :=
  String.join (numbersFindAll text)

/-- Source `copy_bond_number` (lines 292-293), applied to the bonds button
text held in the state. -/
def copy_bond_number (st : AppState) : String :=
  copyButtonNumber st.bondsText


/-- A loaded state with the three fund symbols in `info_table[1]`, used to
instantiate theorems about `buy_or_sell` on concrete inputs. -/
def stNames : AppState :=
  { filename := "Portfolio_Positions_2020.csv", currentBalances := [100, 100, 100],
    infoTable := [headerRow, ["FXNAX", "FZILX", "FZROX"], ["$100", "$100", "$100"]],
    targetValue := [], errorLabel := "", infoLabel := "",
    bondsText := "", internationalText := "", nationalText := "" }

/-- The spec's worked example: balances 100/100/100 loaded from a "2020"
file (the raw cells keep their dollar signs). -/
def st3ex : AppState :=
  { filename := "Portfolio_Positions_Mar-2020.csv", currentBalances := [100, 100, 100],
    infoTable := [headerRow, ["FXNAX", "FZILX", "FZROX"], ["$100", "$100", "$100"]],
    targetValue := [], errorLabel := "", infoLabel := "",
    bondsText := "", internationalText := "", nationalText := "" }

/-- A state holding previously loaded balances, about to load a short file. -/
def st7pre : AppState :=
  { filename := "short.csv", currentBalances := [5, 6, 7],
    infoTable := [["old", "table"]], targetValue := [], errorLabel := "", infoLabel := "",
    bondsText := "", internationalText := "", nationalText := "" }

/-- A loaded state with visible labels and button texts, used to check that
an invalid invest amount leaves everything but the error label unchanged. -/
def st8w : AppState :=
  { filename := "Portfolio_Positions_2020.csv", currentBalances := [100, 100, 100],
    infoTable := [headerRow, ["FXNAX", "FZILX", "FZROX"], ["$100", "$100", "$100"]],
    targetValue := ["60.0", "90.0", "150.0"], errorLabel := "Strategy Calculated",
    infoLabel := "previous table", bondsText := "Sell $40.0 FXNAX",
    internationalText := "Sell $10.0 FZILX", nationalText := "Buy $50.0 FZROX" }

/-- A state loaded from a csv whose balance cells "0.21"/"0.31"/"0.52" carry
no dollar sign and coincide with the target values the 2020 glide path
computes for them, making the balances row equal to the appended
target-value row. -/
def st10 : AppState :=
  { filename := "Portfolio_Positions_2020.csv", currentBalances := [0.21, 0.31, 0.52],
    infoTable := [headerRow, ["FXNAX", "FZILX", "FZROX"], ["0.21", "0.31", "0.52"]],
    targetValue := [], errorLabel := "", infoLabel := "",
    bondsText := "", internationalText := "", nationalText := "" }

/-- C1: whenever `buy_or_sell` does not take the Hold branch (and the fund
name lookup succeeds, the only remaining failure point), it computes
`target = total * percentage` and returns a Buy decision when
`target / current > 1.0` and otherwise a Sell decision, with trade amount
`|target - current|` rounded to 2 decimal places. -/
theorem buy_or_sell_trade_action (st : AppState) (p t c m : ℚ) (key : Nat)
    (name : String) (hc : c ≠ 0)
    (hname : (st.infoTable.get? 1).bind (fun row => row.get? key) = some name)
    (hno : ¬ ((0.95 : ℚ) < t * p / c ∧ t * p / c < (1.05 : ℚ) ∧ pyInt m = 0)) :
    (buy_or_sell st p t c m key).map (fun r => r.2.1)
      = .ok (if (1 : ℚ) < t * p / c
             then Action.buy (pyRound2 |t * p - c|)
             else Action.sell (pyRound2 |t * p - c|)) := by
  simp only [buy_or_sell, hname, if_neg hc, if_neg hno]
  by_cases hr : (1 : ℚ) < t * p / c
  · rw [if_pos hr, if_pos hr]
    simp [Except.map, abs_sub_comm]
  · rw [if_neg hr, if_neg hr]
    simp [Except.map, abs_sub_comm]

/-- Witness for C1 at percentage 1/2, total 300, current 100, new money 0:
the ratio is 1.5, the Hold branch is not taken, and the decision follows
the theorem's Buy/Sell rule. -/
theorem buy_or_sell_trade_action_witness :
    (buy_or_sell stNames (1/2) 300 100 0 0).map (fun r => r.2.1)
      = .ok (if (1 : ℚ) < 300 * (1/2) / 100
             then Action.buy (pyRound2 |300 * (1/2) - 100|)
             else Action.sell (pyRound2 |300 * (1/2) - 100|)) :=
  buy_or_sell_trade_action stNames (1/2) 300 100 0 0 "FXNAX"
    (by norm_num) (by with_unfolding_all decide)
    (fun h => absurd h.2.1 (by norm_num))

/-- C2 fails on the code: with new money 1/2 (strictly positive) and the
ratio exactly 1.0 (inside the tolerance band), `buy_or_sell` still takes
the Hold branch, because line 37 tests `int(money_to_invest) == 0` and
`int(0.5) == 0`; the claim requires a non-Hold action for any positive
new money inside the band. -/
theorem buy_or_sell_fractional_money_still_hold :
    (buy_or_sell stNames (1/2) 200 100 (1/2) 0).map (fun r => r.2.1)
      = .ok Action.hold
    ∧ (0.95 : ℚ) < 200 * (1/2) / 100 ∧ 200 * (1/2) / 100 < (1.05 : ℚ)
    ∧ (0 : ℚ) < 1/2 := by
  with_unfolding_all decide

/-- C3: with balances [100, 100, 100], new money 0 and a "2020" filename,
the total is 300 and the three funds get target values 60/90/150 with
decisions Sell $40, Sell $10 and Buy $50. -/
theorem calculate_strategy_example_2020 :
    (calculate_strategy st3ex 0).map
        (fun r => (r.2, r.1.targetValue,
          r.1.bondsText, r.1.internationalText, r.1.nationalText))
      = Except.ok ((Action.sell 40, Action.sell 10, Action.buy 50),
          ["60.0", "90.0", "150.0"],
          "Sell $40.0 FXNAX", "Sell $10.0 FZILX", "Buy $50.0 FZROX") := by
  with_unfolding_all decide

/-- C4: for every filename (hence for every enumerated glide-path key and
for the default branch) the selected bond/international/national
percentages sum exactly to 1. -/
theorem glide_percentages_sum_one (filename : String) :
    (glidePercentages filename).1 + (glidePercentages filename).2.1
      + (glidePercentages filename).2.2 = 1 := by
  unfold glidePercentages
  split_ifs <;> norm_num

/-- C5: the `if/elif` chain of `calculate_strategy` agrees with first-match
lookup over the ordered token table ("2020" .. "2090", substring
containment, first match wins), defaulting to all bonds (1, 0, 0) when no
token occurs in the filename. -/
theorem glide_percentages_eq_first_match (filename : String) :
    glidePercentages filename = glideFirstMatch filename := by
  unfold glidePercentages glideFirstMatch glideTable
  split_ifs with h1 h2 h3 h4 h5 h6 h7 h8 <;> simp_all [List.find?]

/-- C6: for every state, percentage, total, new-money amount and key, a
zero current balance makes `buy_or_sell` raise ZeroDivisionError at the
ratio computation of line 33. -/
theorem buy_or_sell_zero_current_division_error
    (st : AppState) (p t m : ℚ) (key : Nat) :
    buy_or_sell st p t 0 m key = .error .zeroDivisionError := by
  unfold buy_or_sell
  rw [if_pos rfl]

/-- C7 fails on the code: loading an opened csv with only three rows does
not produce the recoverable `[-1]` flag; the row indexing sits in the
`else:` block outside the `try`, so an uncaught IndexError escapes while
`current_balances` has already been cleared and `info_table` reset — a
crash with partial state mutation. -/
theorem scrape_short_csv_uncaught_index_error :
    scrape_values_from_csv (some [["a"], ["b"], ["c"]]) st7pre
      = ({ st7pre with currentBalances := [], infoTable := [headerRow] },
         some PyError.indexError)
    ∧ (scrape_values_from_csv (some [["a"], ["b"], ["c"]]) st7pre).1.currentBalances
        ≠ [-1]
    ∧ (scrape_values_from_csv (some [["a"], ["b"], ["c"]]) st7pre).1.currentBalances
        ≠ st7pre.currentBalances := by
  with_unfolding_all decide

/-- C8: `calculate` treats a blank invest-amount entry exactly like the
amount 0; for every other entry on which `float` fails it sets the
"You did not enter a valid amount" label and returns with every other
state component (balances, info table, labels, button texts) unchanged. -/
theorem calculate_invest_amount_validation :
    (∀ (st : AppState) (text : String), text ≠ "" →
        calculate st none text
          = ({ st with errorLabel := "You did not enter a valid amount" }, none))
    ∧ (∀ st : AppState, calculate st none "" = calculate st (some 0) "") := by
  constructor
  · intro st text h
    simp only [calculate, if_neg h]
  · intro st
    rfl

/-- Witness for C8 at the non-numeric entry "abc" on a fully loaded state:
only the error label changes. -/
theorem calculate_invest_amount_validation_witness :
    calculate st8w none "abc"
      = ({ st8w with errorLabel := "You did not enter a valid amount" }, none) :=
  calculate_invest_amount_validation.1 st8w "abc" (by decide)

/-- C9: the clipboard extraction `''.join(numbers.findall(text))` on
"Buy $40.0 Bond Fund" finds exactly the decimal substring "40.0" and
yields exactly "40.0". -/
theorem copy_extraction_buy_forty :
    numbersFindAll "Buy $40.0 Bond Fund" = ["40.0"]
    ∧ copyButtonNumber "Buy $40.0 Bond Fund" = "40.0" := by
  with_unfolding_all decide

/-- C10 fails on the code: starting from `st10` (balances row equal, as
strings, to the target-value row the 2020 strategy appends), a successful
calculate run ends with info table
[header, symbols, current-allocation row] instead of the three
pre-calculation rows [header, symbols, balances]: `list.remove` deletes
the first row equal to the last one, so the original balances row is
removed in place of the appended target-value row. -/
theorem calculate_wrong_rows_after_duplicate :
    (calculate st10 none "").2 = none
    ∧ (calculate st10 none "").1.errorLabel = "Strategy Calculated"
    ∧ st10.infoTable
        = [headerRow, ["FXNAX", "FZILX", "FZROX"], ["0.21", "0.31", "0.52"]]
    ∧ (calculate st10 none "").1.infoTable
        = [headerRow, ["FXNAX", "FZILX", "FZROX"], ["20.19%", "29.81%", "50.0%"]]
    ∧ (calculate st10 none "").1.infoTable ≠ st10.infoTable := by
  with_unfolding_all decide

end AssetAllocation
